import Mathlib

/-!
Verification of the job dispatch and hybrid execution engine of the
meeting-recorder system: a shallow embedding of `src/processing_queue.py`
and `src/server_client.py`, together with proofs of the specified
properties of enqueueing, the dispatcher loop, the hybrid/remote/local
execution strategy, and the remote client's error handling.

External collaborators (transcription, summarization, markdown persistence,
the HTTP transport and the filesystem) are modelled as oracle functions
gathered in a `World` record, matching the narrow functional contracts of
spec §6; the engine's own control flow is translated statement by statement
from the Python source.
-/

set_option autoImplicit false

namespace MeetingRecorder

/-- `JobStatus` from `processing_queue.py`: status of a processing job. -/
inductive JobStatus where
  | pending
  | processing
  | completed
  | failed
deriving DecidableEq, Repr

/-- A wall-clock timestamp as carried by `datetime`: the fields that
`strftime` renders, plus microseconds (which `%Y%m%d_%H%M%S` drops). -/
structure Timestamp where
  year : Nat
  month : Nat
  day : Nat
  hour : Nat
  minute : Nat
  second : Nat
  micro : Nat
deriving DecidableEq, Repr

/-- Zero-padded decimal rendering of `n` to exactly `w` digits, least
significant digit last — the behaviour of `strftime`'s padded fields for
in-range values (for `n ≥ 10^w` only the low `w` digits are kept; all
theorems use in-range dates). -/
def padNat : Nat → Nat → List Char
  | 0, _ => []
  | w + 1, n => padNat w (n / 10) ++ [Char.ofNat (48 + n % 10)]

/-- `timestamp.strftime('%Y%m%d_%H%M%S')` as used to build job ids. -/
def strftimeId (t : Timestamp) : String :=
  String.mk (padNat 4 t.year ++ padNat 2 t.month ++ padNat 2 t.day ++ ['_'] ++
    padNat 2 t.hour ++ padNat 2 t.minute ++ padNat 2 t.second)

/-- `timestamp.strftime('%Y-%m-%d_%H-%M-%S')` as used for transcript and
summary file names saved from server results. -/
def strftimeDash (t : Timestamp) : String :=
  String.mk (padNat 4 t.year ++ ['-'] ++ padNat 2 t.month ++ ['-'] ++ padNat 2 t.day ++ ['_'] ++
    padNat 2 t.hour ++ ['-'] ++ padNat 2 t.minute ++ ['-'] ++ padNat 2 t.second)

/-- The job id built by `ProcessingQueue.enqueue`:
`f"{timestamp.strftime('%Y%m%d_%H%M%S')}_{title}"`. -/
def job_id_of (ts : Timestamp) (title : String) : String :=
  strftimeId ts ++ "_" ++ title

/-- The configuration fields read by `ProcessingQueue`.

The whisper/ollama/output fields mirror the properties of `Config` in
`src/config.py`. Modelled from the spec: the `processing_mode`,
`server_enabled`, `server_url`, `server_api_key`, `server_timeout` and
`server_health_check_timeout` accessors are referenced by
`processing_queue.py` but absent from the `config.py` in the source
snapshot (which also lacks `summarize.py`); they are modelled as plain
fields holding the mode `local`/`hybrid`/`remote` and the server
connection parameters described in spec §4.3 and §6. -/
structure Config where
  whisper_model : String
  whisper_device : String
  whisper_compute_type : String
  ollama_model : String
  ollama_endpoint : String
  meetings_dir : String
  keep_audio : Bool
  processing_mode : String
  server_enabled : Bool
  server_url : String
  server_api_key : String
  server_timeout : Nat
  server_health_check_timeout : Nat
deriving DecidableEq, Repr

/-- The `ProcessingJob` dataclass: an immutable request (id, audio file,
timestamp, title, and the execution-parameter snapshot taken at enqueue
time) plus mutable `status` and `error_message`. -/
structure ProcessingJob where
  job_id : String
  audio_file : String
  timestamp : Timestamp
  title : String
  whisper_model : String
  whisper_device : String
  whisper_compute_type : String
  ollama_model : String
  ollama_endpoint : String
  meetings_dir : String
  keep_audio : Bool
  status : JobStatus
  error_message : Option String
deriving DecidableEq, Repr

/-- The `ProcessingJob(...)` construction inside `enqueue`: snapshot the
execution parameters from the live configuration, status `PENDING`. -/
def mkJob (cfg : Config) (audio_file : String) (ts : Timestamp) (title : String) :
    ProcessingJob :=
  { job_id := job_id_of ts title
    audio_file := audio_file
    timestamp := ts
    title := title
    whisper_model := cfg.whisper_model
    whisper_device := cfg.whisper_device
    whisper_compute_type := cfg.whisper_compute_type
    ollama_model := cfg.ollama_model
    ollama_endpoint := cfg.ollama_endpoint
    meetings_dir := cfg.meetings_dir
    keep_audio := cfg.keep_audio
    status := JobStatus.pending
    error_message := none }

/-- The `self.jobs` dict: an association list with unique keys, in
insertion order. -/
abbrev Registry := List (String × ProcessingJob)

/-- Python dict assignment `d[k] = v`: overwrite in place if the key is
present, else append. -/
def dictInsert (k : String) (v : ProcessingJob) : Registry → Registry
  | [] => [(k, v)]
  | (k', v') :: rest => if k' = k then (k, v) :: rest else (k', v') :: dictInsert k v rest

/-- Python `del d[k]`: remove the entry with key `k` (keys are unique). -/
def dictErase (k : String) : Registry → Registry
  | [] => []
  | (k', v') :: rest => if k' = k then rest else (k', v') :: dictErase k rest

/-- Python `d.get(k)`. -/
def dictLookup (k : String) : Registry → Option ProcessingJob
  | [] => none
  | (k', v') :: rest => if k' = k then some v' else dictLookup k rest

/-- The mutable state of a `ProcessingQueue`: the status registry
(`self.jobs`), the FIFO of queued jobs (`self.queue`), and the queue's
fixed capacity (`maxsize`). -/
structure QueueState where
  jobs : Registry
  queued : List ProcessingJob
  maxsize : Nat
deriving DecidableEq, Repr

/-- `queue.put(job, block=False)` raises `queue.Full` exactly when the
queue has a positive maxsize that is already reached. -/
def queueFull (st : QueueState) : Bool :=
  decide (0 < st.maxsize ∧ st.maxsize ≤ st.queued.length)

/-- Outcome of `enqueue`: either the updated state with the returned job
id, or the `queue.Full` exception together with the state left behind. -/
inductive EnqueueResult where
  | ok (st : QueueState) (jid : String)
  | full (st : QueueState)
deriving DecidableEq, Repr

/-- `ProcessingQueue.enqueue`: build the job id and the job (snapshotting
the live configuration), register the job in `self.jobs`, then try a
non-blocking `queue.put`; on `queue.Full`, delete the registry entry for
the id and re-raise. -/
def enqueue (cfg : Config) (st : QueueState) (audio_file : String) (ts : Timestamp)
    (title : String) : EnqueueResult :=
  let jid := job_id_of ts title
  let job := mkJob cfg audio_file ts title
  let jobs1 := dictInsert jid job st.jobs
  if queueFull st then
    EnqueueResult.full { st with jobs := dictErase jid jobs1 }
  else
    EnqueueResult.ok { st with jobs := jobs1, queued := st.queued ++ [job] } jid

/-- `ServerStatus` from `server_client.py`. -/
inductive ServerStatus where
  | available
  | unavailable
  | error
deriving DecidableEq, Repr

/-- `ProcessingResult` from `server_client.py`. -/
structure ProcessingResult where
  success : Bool
  transcript_text : Option String := none
  summary_text : Option String := none
  error_message : Option String := none
  processing_time : Option Nat := none
deriving DecidableEq, Repr

/-- The fields of the JSON object returned by `POST /api/process` that
`process_recording` reads via `result_data.get(...)`; `none` means the
field is absent. -/
structure JsonBody where
  success : Option Bool
  error : Option String
  transcript : Option String
  summary : Option String
deriving DecidableEq, Repr

instance {ε α : Type} [DecidableEq ε] [DecidableEq α] : DecidableEq (Except ε α) :=
  fun a b =>
    match a, b with
    | Except.ok x, Except.ok y =>
      if h : x = y then isTrue (by rw [h]) else isFalse (by intro hc; injection hc; contradiction)
    | Except.ok _, Except.error _ => isFalse (by intro hc; cases hc)
    | Except.error _, Except.ok _ => isFalse (by intro hc; cases hc)
    | Except.error x, Except.error y =>
      if h : x = y then isTrue (by rw [h]) else isFalse (by intro hc; injection hc; contradiction)

/-- Raw outcome of `session.get(f"{server_url}/health", ...)` as seen by
`check_health`: the two `requests` exceptions it handles specially, a
response (whose `.json()['status']` either parses to an optional string
field or raises with a message), or any other exception. -/
inductive HttpGetOutcome where
  | timeout
  | connectionError
  | response (status_code : Nat) (body_status : Except String (Option String))
  | raised (msg : String)
deriving DecidableEq, Repr

/-- Raw outcome of the upload in `process_recording`: timeout, connection
error, a response carrying a status code, a text body and a JSON body that
either parses or raises, or any other exception inside the `try` block
(e.g. `open(audio_file)` failing). -/
inductive HttpPostOutcome where
  | timeout
  | connectionError
  | response (status_code : Nat) (text : String) (body : Except String JsonBody)
  | raised (msg : String)
deriving DecidableEq, Repr

/-- `ServerClient.check_health`: 200 with `{"status": "ok"}` is
`AVAILABLE`; any other parse result or status code is `ERROR`; `Timeout`
and `ConnectionError` are `UNAVAILABLE`; any other exception is `ERROR`. -/
def check_health (g : HttpGetOutcome) : ServerStatus :=
  match g with
  | HttpGetOutcome.timeout => ServerStatus.unavailable
  | HttpGetOutcome.connectionError => ServerStatus.unavailable
  | HttpGetOutcome.raised _ => ServerStatus.error
  | HttpGetOutcome.response code body =>
    match body with
    | Except.error _ => ServerStatus.error
    | Except.ok status? =>
      if code = 200 ∧ status? = some "ok" then ServerStatus.available
      else ServerStatus.error

/-- `ServerClient.process_recording` as a function of the raw transport
outcome: every branch of the Python `try`/`except` returns a
`ProcessingResult`, so the embedding is a total function — no path raises
to the caller. `timeout` is `self.timeout`; `elapsed` stands for the
measured wall-clock processing time. -/
def process_recording (timeout : Nat) (elapsed : Nat) (post : HttpPostOutcome) :
    ProcessingResult :=
  match post with
  | HttpPostOutcome.timeout =>
    { success := false
      error_message := some ("Server timeout after " ++ toString timeout ++ " seconds") }
  | HttpPostOutcome.connectionError =>
    { success := false, error_message := some "Failed to connect to server" }
  | HttpPostOutcome.raised m =>
    { success := false, error_message := some ("Processing error: " ++ m) }
  | HttpPostOutcome.response code text body =>
    if code ≠ 200 then
      { success := false
        error_message := some ("Server returned " ++ toString code ++ ": " ++ text) }
    else
      match body with
      | Except.error m =>
        { success := false, error_message := some ("Processing error: " ++ m) }
      | Except.ok j =>
        if j.success ≠ some true then
          { success := false, error_message := some (j.error.getD "Unknown server error") }
        else
          { success := true
            transcript_text := j.transcript
            summary_text := j.summary
            processing_time := some elapsed }

/-- The external collaborators of spec §6, as oracle functions: the HTTP
transport behind `ServerClient`, the filesystem writes of
`_save_server_results`, and the transcription / summarization / markdown
collaborators invoked by `_process_locally` (whose modules are not part of
the core). `Except.error msg` models the collaborator raising an
exception with message `msg`. -/
structure World where
  /-- Transport result of `GET {url}/health` with the given api key and
  health-check timeout. -/
  health_get : String → String → Nat → HttpGetOutcome
  /-- Transport result of `POST {url}/api/process` with the given api key,
  timeout, audio file, title, whisper model and ollama model. -/
  process_post : String → String → Nat → String → String → String → String → HttpPostOutcome
  /-- Wall-clock seconds measured for a successful server run. -/
  elapsed : Nat
  /-- `Path.parent` of an audio file path. -/
  parent : String → String
  /-- `path.write_text(content)`; the content is the optional transcript or
  summary string handed over from the server result. -/
  write_text : String → Option String → Except String Unit
  /-- `MarkdownWriter(output_dir).write_meeting(transcript_path,
  summary_path, audio_path?, timestamp, title)`. -/
  write_meeting : String → String → String → Option String → Timestamp → String →
    Except String Unit
  /-- The transcription collaborator: audio file, model, device, compute
  type; returns the transcript file if one was generated (`none` models
  `transcript_file` unset or missing), or raises. -/
  transcribe : String → String → String → String → Except String (Option String)
  /-- The summarization collaborator: transcript file, ollama model, ollama
  endpoint; returns the summary path, or raises. -/
  summarize : String → String → String → Except String String

/-- `ProcessingQueue._save_server_results`: write the transcript and
summary next to the audio file, then write the meeting markdown. Any
raised exception propagates. -/
def save_server_results (w : World) (job : ProcessingJob)
    (transcript summary : Option String) : Except String Unit := do
  let transcript_file :=
    w.parent job.audio_file ++ "/transcript_" ++ strftimeDash job.timestamp ++ ".txt"
  w.write_text transcript_file transcript
  let summary_file :=
    w.parent job.audio_file ++ "/summary_" ++ strftimeDash job.timestamp ++ ".txt"
  w.write_text summary_file summary
  w.write_meeting job.meetings_dir transcript_file summary_file
    (if job.keep_audio then some job.audio_file else none) job.timestamp job.title

/-- `ProcessingQueue._process_locally`: transcribe the audio with the
job's snapshotted whisper parameters, fail if no transcript file was
generated, summarize with the job's snapshotted ollama parameters, then
write the meeting markdown. Any collaborator exception propagates. -/
def process_locally (w : World) (job : ProcessingJob) : Except String Unit := do
  let tf? ← w.transcribe job.audio_file job.whisper_model job.whisper_device
    job.whisper_compute_type
  match tf? with
  | none => Except.error "Transcription failed - no transcript file generated"
  | some tf => do
    let sp ← w.summarize tf job.ollama_model job.ollama_endpoint
    w.write_meeting job.meetings_dir tf sp
      (if job.keep_audio then some job.audio_file else none) job.timestamp job.title

/-- `ProcessingQueue._try_server_processing`: build a client from the live
configuration's server parameters, check health (not `AVAILABLE` → return
`False`), upload and process (`success == False` → return `False`), save
the results locally (exceptions propagate), return `True`. -/
def try_server_processing (cfg : Config) (w : World) (job : ProcessingJob) :
    Except String Bool :=
  let status := check_health
    (w.health_get cfg.server_url cfg.server_api_key cfg.server_health_check_timeout)
  if status ≠ ServerStatus.available then Except.ok false
  else
    let result := process_recording cfg.server_timeout w.elapsed
      (w.process_post cfg.server_url cfg.server_api_key cfg.server_timeout
        job.audio_file job.title job.whisper_model job.ollama_model)
    if result.success = false then Except.ok false
    else
      match save_server_results w job result.transcript_text result.summary_text with
      | Except.error e => Except.error e
      | Except.ok _ => Except.ok true

/-- Result of `_process_job`, instrumented with how many times
`_process_locally` was invoked and how many times `_try_server_processing`
was invoked; `outcome` is `Except.error e` when `_process_job` raises `e`
to the worker. -/
structure ProcessOutcome where
  outcome : Except String Unit
  localCalls : Nat
  remoteCalls : Nat
deriving DecidableEq, Repr

/-- `ProcessingQueue._process_job`: in `hybrid` or `remote` mode with the
server enabled, try server processing first; on success return; on a
`False` result raise in `remote` mode (no fallback) and fall through to
local in `hybrid` mode; on an exception re-raise in `remote` mode and fall
through to local otherwise. In all other cases process locally. The
processing mode and server parameters are read from the live
configuration, not from the job's snapshot. -/
def process_job (cfg : Config) (w : World) (job : ProcessingJob) : ProcessOutcome :=
  if (cfg.processing_mode = "hybrid" ∨ cfg.processing_mode = "remote") ∧
      cfg.server_enabled then
    match try_server_processing cfg w job with
    | Except.ok true => { outcome := Except.ok (), localCalls := 0, remoteCalls := 1 }
    | Except.ok false =>
      if cfg.processing_mode = "remote" then
        { outcome := Except.error
            "Server processing failed and mode is 'remote' (no local fallback)"
          localCalls := 0, remoteCalls := 1 }
      else
        { outcome := process_locally w job, localCalls := 1, remoteCalls := 1 }
    | Except.error e =>
      if cfg.processing_mode = "remote" then
        { outcome := Except.error e, localCalls := 0, remoteCalls := 1 }
      else
        { outcome := process_locally w job, localCalls := 1, remoteCalls := 1 }
  else
    { outcome := process_locally w job, localCalls := 1, remoteCalls := 0 }

/-- Behaviour of the registered status callback on one invocation: it
either returns or raises. -/
inductive CbOutcome where
  | ok
  | raises (msg : String)
deriving DecidableEq, Repr

/-- `ProcessingQueue._notify_status_change`: the callback is invoked
inside a `try`/`except` that prints and swallows any exception, so the
notification always returns. -/
def notify_status_change (cb : CbOutcome) : Unit :=
  match cb with
  | CbOutcome.ok => ()
  | CbOutcome.raises _ => ()

/-- The environment of one worker iteration: the collaborator world for
the job and the behaviour of the status callback at the `PROCESSING`
notification and at the terminal notification. -/
structure JobEnv where
  world : World
  cbOnProcessing : CbOutcome
  cbOnTerminal : CbOutcome

/-- One iteration of `ProcessingQueue._worker` on a dequeued job: mark it
`PROCESSING` and notify, run `_process_job` inside `try`/`except`, and
mark the job `COMPLETED`, or `FAILED` with the caught exception's message,
notifying again. -/
def worker_iteration (cfg : Config) (env : JobEnv) (job : ProcessingJob) :
    ProcessingJob :=
  let j1 := { job with status := JobStatus.processing }
  let _ := notify_status_change env.cbOnProcessing
  let j2 :=
    match (process_job cfg env.world j1).outcome with
    | Except.ok _ => { j1 with status := JobStatus.completed }
    | Except.error e => { j1 with status := JobStatus.failed, error_message := some e }
  let _ := notify_status_change env.cbOnTerminal
  j2

/-- The `while self.running` loop of `_worker`, over the finite sequence
of jobs dequeued while running: each dequeued job is handled by exactly
one iteration, whatever the strategy or the callback does. -/
def worker_loop (cfg : Config) : List (ProcessingJob × JobEnv) → List ProcessingJob
  | [] => []
  | (job, env) :: rest => worker_iteration cfg env job :: worker_loop cfg rest

/-- The sequence of values taken by a job's `status` field across its
handling by the worker: its status on entry, then `PROCESSING`, then the
terminal status the iteration assigns. -/
def worker_trace (cfg : Config) (env : JobEnv) (job : ProcessingJob) : List JobStatus :=
  [job.status, JobStatus.processing, (worker_iteration cfg env job).status]

/-- `COMPLETED` and `FAILED` are the terminal statuses. -/
def isTerminal : JobStatus → Bool
  | JobStatus.completed => true
  | JobStatus.failed => true
  | _ => false

/-- The status transitions the spec allows:
`Pending → Processing → (Completed | Failed)`. -/
def validTransition : JobStatus → JobStatus → Bool
  | JobStatus.pending, JobStatus.processing => true
  | JobStatus.processing, JobStatus.completed => true
  | JobStatus.processing, JobStatus.failed => true
  | _, _ => false

/-! Concrete fixtures used by witnesses and counterexamples. -/

/-- A configuration in `local` mode with typical values. -/
def cfgBase : Config :=
  { whisper_model := "base"
    whisper_device := "cpu"
    whisper_compute_type := "default"
    ollama_model := "llama3.2:3b"
    ollama_endpoint := "http://localhost:11434"
    meetings_dir := "/notes/meetings"
    keep_audio := true
    processing_mode := "local"
    server_enabled := false
    server_url := "http://server:8000"
    server_api_key := ""
    server_timeout := 300
    server_health_check_timeout := 5 }

/-- `cfgBase` with different whisper and ollama models (a later live
reconfiguration of the snapshot-type parameters). -/
def cfgBaseAlt : Config :=
  { cfgBase with whisper_model := "large-v3", ollama_model := "qwen3:8b-q8_0" }

/-- `cfgBase` switched to `hybrid` mode with the server enabled. -/
def cfgHybrid : Config := { cfgBase with processing_mode := "hybrid", server_enabled := true }

/-- `cfgBase` switched to `remote` mode with the server enabled. -/
def cfgRemote : Config := { cfgBase with processing_mode := "remote", server_enabled := true }

/-- `remote` mode but with `server_enabled` off. -/
def cfgRemoteDisabled : Config := { cfgBase with processing_mode := "remote" }

/-- A world where the server is healthy, processing succeeds and every
local collaborator succeeds. -/
def okWorld : World :=
  { health_get := fun _ _ _ => HttpGetOutcome.response 200 (Except.ok (some "ok"))
    process_post := fun _ _ _ _ _ _ _ => HttpPostOutcome.response 200 ""
      (Except.ok { success := some true, error := none,
                   transcript := some "full transcript", summary := some "short summary" })
    elapsed := 7
    parent := fun _ => "/rec"
    write_text := fun _ _ => Except.ok ()
    write_meeting := fun _ _ _ _ _ _ => Except.ok ()
    transcribe := fun _ _ _ _ => Except.ok (some "/rec/transcript.txt")
    summarize := fun _ _ _ => Except.ok "/rec/summary.txt" }

/-- `okWorld` with the health probe timing out (server down). -/
def downWorld : World := { okWorld with health_get := fun _ _ _ => HttpGetOutcome.timeout }

/-- `okWorld` with local file writes failing (server results cannot be
persisted). -/
def saveFailWorld : World := { okWorld with write_text := fun _ _ => Except.error "disk full" }

/-- Server down and the local transcription collaborator raising. -/
def localFailWorld : World :=
  { downWorld with transcribe := fun _ _ _ _ => Except.error "whisper crashed" }

/-- A sample timestamp. -/
def ts0 : Timestamp := ⟨2025, 1, 2, 3, 4, 5, 0⟩

/-- `ts0` with a different microsecond component (a distinct `datetime`). -/
def ts0m : Timestamp := ⟨2025, 1, 2, 3, 4, 5, 999999⟩

/-- A sample timestamp one hour after `ts0`. -/
def ts1 : Timestamp := ⟨2025, 1, 2, 4, 4, 5, 0⟩

/-- A sample job enqueued under `cfgBase`. -/
def job0 : ProcessingJob := mkJob cfgBase "/rec/a.wav" ts0 "standup"

/-- An already-completed job occupying the registry under the id that
`ts0`/"standup" maps to. -/
def jobOld : ProcessingJob :=
  { mkJob cfgBase "/rec/old.wav" ts0 "standup" with status := JobStatus.completed }

/-- A queue state whose single-slot queue is full and whose registry holds
`jobOld`. -/
def stFull : QueueState :=
  { jobs := [(job_id_of ts0 "standup", jobOld)]
    queued := [mkJob cfgBase "/rec/q.wav" ts1 "other"]
    maxsize := 1 }

/-- A full single-slot queue whose registry does not contain the id that
`ts0`/"standup" maps to. -/
def stFullFresh : QueueState :=
  { jobs := [], queued := [mkJob cfgBase "/rec/q.wav" ts1 "other"], maxsize := 1 }

/-- An empty queue state with the default capacity 5. -/
def stEmpty : QueueState := { jobs := [], queued := [], maxsize := 5 }

/-- A job environment whose callbacks both raise. -/
def envBoom : JobEnv :=
  { world := localFailWorld
    cbOnProcessing := CbOutcome.raises "ui refresh failed"
    cbOnTerminal := CbOutcome.raises "ui refresh failed" }

/-- A job environment with well-behaved callbacks over `okWorld`. -/
def envOk : JobEnv :=
  { world := okWorld, cbOnProcessing := CbOutcome.ok, cbOnTerminal := CbOutcome.ok }

/-! Helper lemmas. -/

lemma dictLookup_insert_self (k : String) (v : ProcessingJob) (l : Registry) :
    dictLookup k (dictInsert k v l) = some v := by
  induction l with
  | nil => simp [dictInsert, dictLookup]
  | cons p rest ih =>
    obtain ⟨k', v'⟩ := p
    by_cases hk : k' = k <;> simp [dictInsert, dictLookup, hk, ih]

lemma dictErase_insert_of_fresh (k : String) (v : ProcessingJob) (l : Registry)
    (h : dictLookup k l = none) : dictErase k (dictInsert k v l) = l := by
  induction l with
  | nil => simp [dictInsert, dictErase]
  | cons p rest ih =>
    obtain ⟨k', v'⟩ := p
    by_cases hk : k' = k
    · simp [dictLookup, hk] at h
    · simp only [dictLookup, if_neg hk] at h
      simp [dictInsert, dictErase, hk, ih h]

lemma padNat_length (w n : Nat) : (padNat w n).length = w := by
  induction w generalizing n with
  | zero => simp [padNat]
  | succ w ih => simp [padNat, ih]

lemma string_data_inj {a b : String} (h : a.data = b.data) : a = b := by
  cases a; cases b; exact congrArg String.mk h

lemma string_data_append (a b : String) : (a ++ b).data = a.data ++ b.data := rfl

lemma strftimeId_data_length (t : Timestamp) : (strftimeId t).data.length = 15 := by
  simp [strftimeId, padNat_length]

/-- If the health probe does not return `AVAILABLE` or the server's
processing result is unsuccessful, `_try_server_processing` returns
`False` (and raises nothing). -/
lemma try_server_processing_eq_false (cfg : Config) (w : World) (job : ProcessingJob)
    (hfail : check_health (w.health_get cfg.server_url cfg.server_api_key
        cfg.server_health_check_timeout) ≠ ServerStatus.available ∨
      (process_recording cfg.server_timeout w.elapsed
        (w.process_post cfg.server_url cfg.server_api_key cfg.server_timeout
          job.audio_file job.title job.whisper_model job.ollama_model)).success = false) :
    try_server_processing cfg w job = Except.ok false := by
  unfold try_server_processing
  rcases hfail with h | h
  · rw [if_pos h]
  · rcases eq_or_ne (check_health (w.health_get cfg.server_url cfg.server_api_key
        cfg.server_health_check_timeout)) ServerStatus.available with hav | hav
    · rw [if_neg (by simp [hav]), if_pos h]
    · rw [if_pos hav]

/-- Every worker iteration leaves the job in a terminal status. -/
lemma worker_iteration_terminal (cfg : Config) (env : JobEnv) (job : ProcessingJob) :
    (worker_iteration cfg env job).status = JobStatus.completed ∨
    (worker_iteration cfg env job).status = JobStatus.failed := by
  unfold worker_iteration
  rcases h : (process_job cfg env.world { job with status := JobStatus.processing }).outcome
    with e | u <;> simp [h]

/-! Claim theorems. -/

/-- Claim C4: a Job handled by the worker moves along
`Pending → Processing → (Completed | Failed)` only: its status trace is
exactly one of the two three-step chains, every step is a valid
transition, and exactly one terminal status is reached exactly once. -/
theorem job_status_trace_monotone_single_terminal (cfg : Config) (env : JobEnv)
    (job : ProcessingJob) (h : job.status = JobStatus.pending) :
    (worker_trace cfg env job =
        [JobStatus.pending, JobStatus.processing, JobStatus.completed] ∨
      worker_trace cfg env job =
        [JobStatus.pending, JobStatus.processing, JobStatus.failed]) ∧
    List.Chain' (fun a b => validTransition a b = true) (worker_trace cfg env job) ∧
    (worker_trace cfg env job).countP (fun s => isTerminal s) = 1 := by
  have ht : worker_trace cfg env job =
      [job.status, JobStatus.processing, (worker_iteration cfg env job).status] := rfl
  rcases worker_iteration_terminal cfg env job with hs | hs <;>
    rw [ht, h, hs] <;>
    exact ⟨by simp, by simp [List.chain'_cons, List.chain'_singleton, validTransition],
      by decide⟩

/-- Witness for C4: a concrete pending job processed under `local` mode
with a healthy local pipeline follows the completed chain. -/
theorem job_status_trace_monotone_single_terminal_witness :
    job0.status = JobStatus.pending ∧
    ((worker_trace cfgBase envOk job0 =
        [JobStatus.pending, JobStatus.processing, JobStatus.completed] ∨
      worker_trace cfgBase envOk job0 =
        [JobStatus.pending, JobStatus.processing, JobStatus.failed]) ∧
    List.Chain' (fun a b => validTransition a b = true) (worker_trace cfgBase envOk job0) ∧
    (worker_trace cfgBase envOk job0).countP (fun s => isTerminal s) = 1) :=
  ⟨rfl, job_status_trace_monotone_single_terminal cfgBase envOk job0 rfl⟩

/-- Claim C7: whatever the hybrid strategy or the status callback does —
including raising on every invocation — every dequeued job is handled by
exactly one iteration reaching a terminal status, and the outcome of an
iteration does not depend on the callback's behaviour at all: no sequence
of failures terminates the dispatcher loop. -/
theorem dispatcher_survives_strategy_and_callback_failures (cfg : Config)
    (l : List (ProcessingJob × JobEnv)) :
    (worker_loop cfg l).length = l.length ∧
    (∀ j, j ∈ worker_loop cfg l →
      j.status = JobStatus.completed ∨ j.status = JobStatus.failed) ∧
    (∀ env env' job, env.world = env'.world →
      worker_iteration cfg env job = worker_iteration cfg env' job) := by
  refine ⟨?_, ?_, ?_⟩
  · induction l with
    | nil => rfl
    | cons p rest ih =>
      obtain ⟨job, env⟩ := p
      simp [worker_loop, ih]
  · induction l with
    | nil => intro j hj; cases hj
    | cons p rest ih =>
      obtain ⟨job, env⟩ := p
      intro j hj
      rcases List.mem_cons.mp hj with hj | hj
      · rw [hj]
        exact worker_iteration_terminal cfg env job
      · exact ih j hj
  · intro env env' job hw
    unfold worker_iteration
    rw [hw]

/-- Witness for C7: a singleton loop whose strategy fails and whose
callbacks raise still yields one terminal job. -/
theorem dispatcher_survives_strategy_and_callback_failures_witness :
    (worker_loop cfgBase [(job0, envBoom)]).length = 1 ∧
    ((worker_iteration cfgBase envBoom job0).status = JobStatus.completed ∨
      (worker_iteration cfgBase envBoom job0).status = JobStatus.failed) :=
  ⟨(dispatcher_survives_strategy_and_callback_failures cfgBase [(job0, envBoom)]).1,
   (dispatcher_survives_strategy_and_callback_failures cfgBase [(job0, envBoom)]).2.1
     (worker_iteration cfgBase envBoom job0) (by simp [worker_loop])⟩

/-- Claim C2: in hybrid mode with the server enabled, if the remote
attempt fails — health probe not `AVAILABLE`, or the remote execution
returning an unsuccessful result after a successful probe — then the
local pipeline is invoked exactly once and the server is tried exactly
once. -/
theorem hybrid_remote_failure_local_fallback_once (cfg : Config) (w : World)
    (job : ProcessingJob) (hm : cfg.processing_mode = "hybrid")
    (he : cfg.server_enabled = true)
    (hfail : check_health (w.health_get cfg.server_url cfg.server_api_key
        cfg.server_health_check_timeout) ≠ ServerStatus.available ∨
      (process_recording cfg.server_timeout w.elapsed
        (w.process_post cfg.server_url cfg.server_api_key cfg.server_timeout
          job.audio_file job.title job.whisper_model job.ollama_model)).success = false) :
    (process_job cfg w job).localCalls = 1 ∧ (process_job cfg w job).remoteCalls = 1 := by
  have htry := try_server_processing_eq_false cfg w job hfail
  simp [process_job, hm, he, htry]

/-- Witness for C2: a concrete hybrid configuration whose health probe
times out falls back to exactly one local run. -/
theorem hybrid_remote_failure_local_fallback_once_witness :
    (process_job cfgHybrid downWorld job0).localCalls = 1 ∧
    (process_job cfgHybrid downWorld job0).remoteCalls = 1 :=
  hybrid_remote_failure_local_fallback_once cfgHybrid downWorld job0 rfl rfl
    (Or.inl (by decide))

/-- Counterexample to C3 as stated: with `processing_mode = "remote"` but
`server_enabled` off, `_process_job` runs the local pipeline — the
RemoteExecutor is not the only executor ever invoked in remote mode. -/
theorem remote_mode_invokes_local_counterexample :
    cfgRemoteDisabled.processing_mode = "remote" ∧
    (process_job cfgRemoteDisabled okWorld job0).localCalls = 1 ∧
    (process_job cfgRemoteDisabled okWorld job0).remoteCalls = 0 := by decide

/-- Claim C3 (amended: with the server enabled): in remote mode with
`server_enabled` on, the local pipeline is never invoked; if the health
probe fails or the remote result is unsuccessful the job's processing
raises (ending it `Failed`), and an exception from the server path is
re-raised unchanged. -/
theorem remote_mode_enabled_no_local_fallback (cfg : Config) (w : World)
    (job : ProcessingJob) (hm : cfg.processing_mode = "remote")
    (he : cfg.server_enabled = true) :
    (process_job cfg w job).localCalls = 0 ∧
    ((check_health (w.health_get cfg.server_url cfg.server_api_key
        cfg.server_health_check_timeout) ≠ ServerStatus.available ∨
      (process_recording cfg.server_timeout w.elapsed
        (w.process_post cfg.server_url cfg.server_api_key cfg.server_timeout
          job.audio_file job.title job.whisper_model job.ollama_model)).success = false) →
      (process_job cfg w job).outcome =
        Except.error "Server processing failed and mode is 'remote' (no local fallback)") ∧
    (∀ e, try_server_processing cfg w job = Except.error e →
      (process_job cfg w job).outcome = Except.error e) := by
  refine ⟨?_, ?_, ?_⟩
  · rcases htry : try_server_processing cfg w job with e | b
    · simp [process_job, hm, he, htry]
    · cases b <;> simp [process_job, hm, he, htry]
  · intro hfail
    have htry := try_server_processing_eq_false cfg w job hfail
    simp [process_job, hm, he, htry]
  · intro e htry
    simp [process_job, hm, he, htry]

/-- Witness for C3 (amended): remote mode with a failing save step
re-raises the save error and never runs locally. -/
theorem remote_mode_enabled_no_local_fallback_witness :
    (process_job cfgRemote saveFailWorld job0).localCalls = 0 ∧
    (process_job cfgRemote saveFailWorld job0).outcome = Except.error "disk full" :=
  ⟨(remote_mode_enabled_no_local_fallback cfgRemote saveFailWorld job0 rfl rfl).1,
   (remote_mode_enabled_no_local_fallback cfgRemote saveFailWorld job0 rfl rfl).2.2
     "disk full" (by decide)⟩

/-- Counterexample to C1 as stated: two live configurations that capture
the identical snapshot at enqueue time (the enqueued jobs are equal) make
the same job behave differently, because `_process_job` reads
`processing_mode` and the server parameters from the live configuration,
not from the job. -/
theorem live_config_changes_execution_counterexample :
    mkJob cfgBase "/rec/a.wav" ts0 "standup" = mkJob cfgRemote "/rec/a.wav" ts0 "standup" ∧
    process_job cfgBase downWorld job0 ≠ process_job cfgRemote downWorld job0 := by decide

/-- Claim C1 (amended): a job's execution depends on the live
configuration only through `processing_mode` and the server connection
parameters; every other execution parameter (whisper model, device,
compute type, ollama model and endpoint, output directory, keep-audio) is
taken from the job's enqueue-time snapshot, so changing those live values
between enqueue and processing cannot change the job's behaviour. -/
theorem execution_depends_only_on_snapshot_and_server_view (cfg cfg' : Config)
    (w : World) (job : ProcessingJob)
    (hm : cfg.processing_mode = cfg'.processing_mode)
    (he : cfg.server_enabled = cfg'.server_enabled)
    (hu : cfg.server_url = cfg'.server_url)
    (hk : cfg.server_api_key = cfg'.server_api_key)
    (ht : cfg.server_timeout = cfg'.server_timeout)
    (hh : cfg.server_health_check_timeout = cfg'.server_health_check_timeout) :
    process_job cfg w job = process_job cfg' w job := by
  unfold process_job try_server_processing
  simp only [hm, he, hu, hk, ht, hh]

/-- Witness for C1 (amended): changing the live whisper and ollama models
after enqueue leaves the job's processing unchanged. -/
theorem execution_depends_only_on_snapshot_and_server_view_witness :
    process_job cfgBase okWorld job0 = process_job cfgBaseAlt okWorld job0 :=
  execution_depends_only_on_snapshot_and_server_view cfgBase cfgBaseAlt okWorld job0
    rfl rfl rfl rfl rfl rfl

/-- Counterexample to C5 as stated: when the queue is full and the new
job's id already has a registry entry (here an earlier completed job with
the same second-resolution timestamp and title), the `Full` path deletes
that pre-existing entry — the registry is not left exactly as it was
before the call. -/
theorem enqueue_full_erases_existing_entry_counterexample :
    enqueue cfgBase stFull "/rec/new.wav" ts0 "standup" =
      EnqueueResult.full { jobs := [], queued := stFull.queued, maxsize := 1 } ∧
    stFull.jobs ≠ [] := by decide

/-- Claim C5 (amended: for an id not already registered): if the queue is
full, `enqueue` raises `Full` and leaves the registry exactly as before
the call whenever no entry with the job's id pre-existed; if the queue is
not full, it returns the job's id with the job registered as `Pending`. -/
theorem enqueue_full_atomic_on_fresh_id (cfg : Config) (st : QueueState)
    (audio : String) (ts : Timestamp) (title : String)
    (hfresh : dictLookup (job_id_of ts title) st.jobs = none) :
    (queueFull st = true →
      enqueue cfg st audio ts title = EnqueueResult.full st) ∧
    (queueFull st = false →
      enqueue cfg st audio ts title =
        EnqueueResult.ok
          { st with
              jobs := dictInsert (job_id_of ts title) (mkJob cfg audio ts title) st.jobs
              queued := st.queued ++ [mkJob cfg audio ts title] }
          (job_id_of ts title) ∧
      dictLookup (job_id_of ts title)
          (dictInsert (job_id_of ts title) (mkJob cfg audio ts title) st.jobs) =
        some (mkJob cfg audio ts title) ∧
      (mkJob cfg audio ts title).status = JobStatus.pending) := by
  constructor
  · intro hful
    simp only [enqueue]
    rw [if_pos hful, dictErase_insert_of_fresh _ _ _ hfresh]
  · intro hful
    simp only [enqueue]
    rw [if_neg (by simp [hful])]
    exact ⟨rfl, dictLookup_insert_self _ _ _, rfl⟩

/-- Witness for C5 (amended): a full single-slot queue with a fresh id
leaves the state untouched on `Full`, and an empty queue registers and
enqueues the job. -/
theorem enqueue_full_atomic_on_fresh_id_witness :
    enqueue cfgBase stFullFresh "/rec/new.wav" ts0 "standup" =
      EnqueueResult.full stFullFresh ∧
    enqueue cfgBase stEmpty "/rec/new.wav" ts0 "standup" =
      EnqueueResult.ok
        { stEmpty with
            jobs := dictInsert (job_id_of ts0 "standup")
              (mkJob cfgBase "/rec/new.wav" ts0 "standup") stEmpty.jobs
            queued := stEmpty.queued ++ [mkJob cfgBase "/rec/new.wav" ts0 "standup"] }
        (job_id_of ts0 "standup") :=
  ⟨(enqueue_full_atomic_on_fresh_id cfgBase stFullFresh "/rec/new.wav" ts0 "standup"
      (by decide)).1 (by decide),
   ((enqueue_full_atomic_on_fresh_id cfgBase stEmpty "/rec/new.wav" ts0 "standup"
      (by decide)).2 (by decide)).1⟩

/-- Claim C6: in hybrid mode with the server enabled, when the remote
attempt fails and the local pipeline then fails with error `e`, the
worker marks the job `Failed` with `error_message` set to the local
error `e`, not to any remote error. -/
theorem hybrid_double_failure_reports_local_error (cfg : Config) (env : JobEnv)
    (job : ProcessingJob) (e : String) (hm : cfg.processing_mode = "hybrid")
    (he : cfg.server_enabled = true)
    (hfail : check_health (env.world.health_get cfg.server_url cfg.server_api_key
        cfg.server_health_check_timeout) ≠ ServerStatus.available ∨
      (process_recording cfg.server_timeout env.world.elapsed
        (env.world.process_post cfg.server_url cfg.server_api_key cfg.server_timeout
          job.audio_file job.title job.whisper_model job.ollama_model)).success = false)
    (hloc : process_locally env.world job = Except.error e) :
    (worker_iteration cfg env job).status = JobStatus.failed ∧
    (worker_iteration cfg env job).error_message = some e := by
  have htry := try_server_processing_eq_false cfg env.world
    { job with status := JobStatus.processing } hfail
  have hout : (process_job cfg env.world
      { job with status := JobStatus.processing }).outcome = Except.error e := by
    simp only [process_job, hm, he, htry]
    simpa using hloc
  simp [worker_iteration, hout]

/-- Witness for C6: a down server and a crashing local transcription
collaborator fail the job with the local error message. -/
theorem hybrid_double_failure_reports_local_error_witness :
    (worker_iteration cfgHybrid envBoom job0).status = JobStatus.failed ∧
    (worker_iteration cfgHybrid envBoom job0).error_message = some "whisper crashed" :=
  hybrid_double_failure_reports_local_error cfgHybrid envBoom job0 "whisper crashed"
    rfl rfl (Or.inl (by decide)) (by decide)

lemma string_ne_empty_of_data_ne_nil {s : String} (h : s.data ≠ []) : s ≠ "" :=
  fun hc => h (by rw [hc])

lemma string_append_data_ne_nil_left {s : String} (t : String) (h : s.data ≠ []) :
    (s ++ t).data ≠ [] := by
  rw [string_data_append]
  intro hc
  exact h (List.append_eq_nil.mp hc).1

/-- Claim C8: on every transport-level failure — timeout, connection
error, non-success HTTP status, or a 200 response whose body fails to
parse — `process_recording` returns a result with `success = false` and a
non-empty error message; being a total function of the transport outcome,
it raises nothing to its caller. -/
theorem process_recording_transport_failure_reports_error (timeout elapsed : Nat)
    (post : HttpPostOutcome)
    (hfail : post = HttpPostOutcome.timeout ∨ post = HttpPostOutcome.connectionError ∨
      (∃ code text body, post = HttpPostOutcome.response code text body ∧ code ≠ 200) ∨
      (∃ text m, post = HttpPostOutcome.response 200 text (Except.error m)) ∨
      (∃ m, post = HttpPostOutcome.raised m)) :
    (process_recording timeout elapsed post).success = false ∧
    ∃ e, (process_recording timeout elapsed post).error_message = some e ∧ e ≠ "" := by
  rcases hfail with h | h | ⟨code, text, body, h, hcode⟩ | ⟨text, m, h⟩ | ⟨m, h⟩ <;> subst h
  · refine ⟨rfl, "Server timeout after " ++ toString timeout ++ " seconds", rfl, ?_⟩
    exact string_ne_empty_of_data_ne_nil
      (string_append_data_ne_nil_left _ (string_append_data_ne_nil_left _ (by decide)))
  · exact ⟨rfl, "Failed to connect to server", rfl, by decide⟩
  · have hpr : process_recording timeout elapsed (HttpPostOutcome.response code text body) =
        { success := false
          error_message := some ("Server returned " ++ toString code ++ ": " ++ text) } := by
      simp [process_recording, hcode]
    rw [hpr]
    refine ⟨rfl, "Server returned " ++ toString code ++ ": " ++ text, rfl, ?_⟩
    exact string_ne_empty_of_data_ne_nil
      (string_append_data_ne_nil_left _
        (string_append_data_ne_nil_left _ (string_append_data_ne_nil_left _ (by decide))))
  · refine ⟨rfl, "Processing error: " ++ m, rfl, ?_⟩
    exact string_ne_empty_of_data_ne_nil (string_append_data_ne_nil_left _ (by decide))
  · refine ⟨rfl, "Processing error: " ++ m, rfl, ?_⟩
    exact string_ne_empty_of_data_ne_nil (string_append_data_ne_nil_left _ (by decide))

/-- Witness for C8: a timed-out upload yields an unsuccessful result with
the timeout message. -/
theorem process_recording_transport_failure_reports_error_witness :
    (process_recording 300 0 HttpPostOutcome.timeout).success = false ∧
    (process_recording 300 0 HttpPostOutcome.timeout).error_message =
      some "Server timeout after 300 seconds" :=
  ⟨(process_recording_transport_failure_reports_error 300 0 HttpPostOutcome.timeout
      (Or.inl rfl)).1, by decide⟩

/-- Counterexample to C9 as stated: two distinct enqueue timestamps
(differing only in microseconds) with the same title produce the same job
id, and the title is embedded raw — no sanitization of spaces, slashes or
colons — so ids are neither unique per enqueue nor sanitized. -/
theorem job_id_collision_counterexample :
    ts0 ≠ ts0m ∧
    job_id_of ts0 "standup" = job_id_of ts0m "standup" ∧
    job_id_of ts0 "a/b: c" = "20250102_030405_a/b: c" := by decide

/-- Claim C9 (amended): the job id is the timestamp formatted to whole
seconds joined to the raw (unsanitized) title; two enqueues receive the
same id exactly when their formatted timestamps and titles both coincide,
so ids are unique only across enqueues differing in formatted timestamp
or title. -/
theorem job_id_eq_iff_formatted_timestamp_and_title_eq (ts1 ts2 : Timestamp)
    (t1 t2 : String) :
    job_id_of ts1 t1 = job_id_of ts2 t2 ↔ strftimeId ts1 = strftimeId ts2 ∧ t1 = t2 := by
  constructor
  · intro h
    have hd := congrArg String.data h
    simp only [job_id_of, string_data_append] at hd
    have hlen : ((strftimeId ts1).data ++ "_".data).length =
        ((strftimeId ts2).data ++ "_".data).length := by
      rw [List.length_append, List.length_append, strftimeId_data_length,
        strftimeId_data_length]
    obtain ⟨hA, hT⟩ := List.append_inj hd hlen
    obtain ⟨hS, _⟩ := List.append_inj hA
      (by rw [strftimeId_data_length, strftimeId_data_length])
    exact ⟨string_data_inj hS, string_data_inj hT⟩
  · rintro ⟨h1, h2⟩
    rw [job_id_of, job_id_of, h1, h2]

/-- Claim C10: in hybrid mode, when the health probe succeeds and the
remote execution returns a successful result but persisting the server's
results raises, the job is not failed at that point: `_process_job`
swallows the exception and runs the entire local pipeline, so the job's
outcome is that of the local run. -/
theorem hybrid_save_failure_falls_back_to_local_rerun (cfg : Config) (w : World)
    (job : ProcessingJob) (e : String) (hm : cfg.processing_mode = "hybrid")
    (he : cfg.server_enabled = true)
    (hhealth : check_health (w.health_get cfg.server_url cfg.server_api_key
        cfg.server_health_check_timeout) = ServerStatus.available)
    (hsucc : (process_recording cfg.server_timeout w.elapsed
        (w.process_post cfg.server_url cfg.server_api_key cfg.server_timeout
          job.audio_file job.title job.whisper_model job.ollama_model)).success = true)
    (hsave : save_server_results w job
        (process_recording cfg.server_timeout w.elapsed
          (w.process_post cfg.server_url cfg.server_api_key cfg.server_timeout
            job.audio_file job.title job.whisper_model job.ollama_model)).transcript_text
        (process_recording cfg.server_timeout w.elapsed
          (w.process_post cfg.server_url cfg.server_api_key cfg.server_timeout
            job.audio_file job.title job.whisper_model job.ollama_model)).summary_text =
      Except.error e) :
    process_job cfg w job =
      { outcome := process_locally w job, localCalls := 1, remoteCalls := 1 } := by
  have htry : try_server_processing cfg w job = Except.error e := by
    simp only [try_server_processing]
    rw [if_neg (by simp [hhealth]), if_neg (by simp [hsucc]), hsave]
  simp [process_job, hm, he, htry]

/-- Witness for C10: a healthy server whose results cannot be written to
disk leads to a full local re-run of the concrete job. -/
theorem hybrid_save_failure_falls_back_to_local_rerun_witness :
    process_job cfgHybrid saveFailWorld job0 =
      { outcome := process_locally saveFailWorld job0, localCalls := 1, remoteCalls := 1 } :=
  hybrid_save_failure_falls_back_to_local_rerun cfgHybrid saveFailWorld job0 "disk full"
    rfl rfl (by decide) (by decide) (by decide)

end MeetingRecorder
